import Mathlib

/-!
Verification of the `may` coroutine runtime's network layer against its
natural-language specification.  The development shallowly embeds the
relevant parts of the repository:

* `src/net/tcp.rs` — the public `TcpStream` / `TcpListener` wrappers;
* `src/io/sys/unix/net/tcp_stream_connect.rs` — the unix connect event
  source (`new`, `done`, `subscribe`);
* `src/io/sys/windows/net/udp_recv_from.rs` — the windows UDP receive
  event source (`done`, `subscribe`);
* `src/sync/poison.rs` — the poison `Flag` / `Guard`;
* `examples/echo.rs` — the echo handler.

Pure control flow is translated into total Lean functions; interaction
with the OS (syscall outcomes, readiness events, the cancel token set by
other coroutines) is passed in as explicit oracle arguments, so every
definition is executable on concrete inputs.  Components of the
repository whose bodies are not part of the excerpt (the `IoContext`
check, the generic read/write event-source wait loop, the reactor's
event delivery, the windows `co_io_result`) are modelled from the spec
and marked as such in their doc comments.
-/

namespace May

/-- Kinds of I/O errors that the embedded code paths distinguish
(`std::io::ErrorKind`, restricted to what the sources inspect). -/
inductive ErrKind where
  | wouldBlock
  | timedOut
  | canceled
  | other
  deriving DecidableEq

/-- Result of an I/O call: `Ok` with a value, or an error of some kind
(`std::io::Result`). -/
inductive IoRes (α : Type) where
  | ok (v : α)
  | err (k : ErrKind)
  deriving DecidableEq

/-! ## C1 — socket domain in the connect path -/

/-- IP socket address as the connect path distinguishes it: a
`SocketAddr::V4` or a `SocketAddr::V6` (the payload is abstracted to a
numeric id, the code only matches on the constructor). -/
inductive SockAddr where
  | v4 (a : Nat)
  | v6 (a : Nat)
  deriving DecidableEq

/-- Domain argument of `Socket::new` (socket2's `Domain`). -/
inductive Domain where
  | ipv4
  | ipv6
  deriving DecidableEq

/-- Domain chosen by `TcpStreamConnect::new` for a resolved address
(src/io/sys/unix/net/tcp_stream_connect.rs, lines 31–34): both the
`SocketAddr::V4` arm and the `SocketAddr::V6` arm call
`Socket::new(Domain::ipv4(), Type::stream(), None)`. -/
def connectDomain : SockAddr → Domain
  | SockAddr.v4 _ => Domain.ipv4
  | SockAddr.v6 _ => Domain.ipv4

/-- Modelled from the spec: the domain that mirrors the address family
("The correct behavior is to mirror the address family"). -/
def mirrorDomain : SockAddr → Domain
  | SockAddr.v4 _ => Domain.ipv4
  | SockAddr.v6 _ => Domain.ipv6

/-! ## C6 — poison flag (src/sync/poison.rs) -/

/-- Poison flag: one `failed` bit (`AtomicBool`, accessed with relaxed
ordering, so representable as plain state). -/
structure Flag where
  failed : Bool
  deriving DecidableEq

/-- Guard returned by `Flag::borrow`: records whether the thread was
already panicking when the guard was taken. -/
structure Guard where
  panicking : Bool
  deriving DecidableEq

/-- Flag::borrow (poison.rs lines 18–25): build a guard recording
`thread::panicking()` (passed here as `tp`); return it as a
`PoisonError` if the failed bit is set, as `Ok` otherwise. -/
def Flag.borrow (f : Flag) (tp : Bool) : Except Guard Guard :=
  let ret : Guard := { panicking := tp }
  if f.failed then Except.error ret else Except.ok ret

/-- Flag::done (poison.rs lines 28–32): set the failed bit when the
thread is panicking now (`tp`) but was not when the guard was taken. -/
def Flag.done (f : Flag) (g : Guard) (tp : Bool) : Flag :=
  if !g.panicking && tp then { failed := true } else f

/-- Discriminator for the poison result of `Flag::borrow`. -/
def isPoisonErr : Except Guard Guard → Bool
  | Except.error _ => true
  | Except.ok _ => false

/-! ## C8/C10 — per-handle timeouts on `TcpStream` (src/net/tcp.rs) -/

/-- The `TcpStream` wrapper of src/net/tcp.rs: the OS socket (`sys`) and
the `IoContext` (`ctx`) are abstracted to ids, the two timeouts are
stored per handle (durations as nanosecond counts). -/
structure TcpStreamM where
  sys : Nat
  ctx : Nat
  readTimeout : Option Nat
  writeTimeout : Option Nat
  deriving DecidableEq

/-- TcpStream::set_read_timeout (tcp.rs lines 87–91): store the duration
(through the `&self` cast) and return `Ok(())`. -/
def setReadTimeout (s : TcpStreamM) (d : Option Nat) : IoRes Unit × TcpStreamM :=
  (IoRes.ok (), { s with readTimeout := d })

/-- TcpStream::set_write_timeout (tcp.rs lines 93–97). -/
def setWriteTimeout (s : TcpStreamM) (d : Option Nat) : IoRes Unit × TcpStreamM :=
  (IoRes.ok (), { s with writeTimeout := d })

/-- TcpStream::read_timeout (tcp.rs lines 99–101): `Ok(self.read_timeout)`. -/
def readTimeoutOf (s : TcpStreamM) : IoRes (Option Nat) :=
  IoRes.ok s.readTimeout

/-- TcpStream::write_timeout (tcp.rs lines 103–105). -/
def writeTimeoutOf (s : TcpStreamM) : IoRes (Option Nat) :=
  IoRes.ok s.writeTimeout

/-- TcpStream::new (tcp.rs lines 23–37) applied to a fresh OS socket:
nonblocking is set on the socket, a fresh context is made, and both
timeouts start out as `None`. -/
def tcpStreamNew (fd : Nat) (ctx : Nat) : TcpStreamM :=
  { sys := fd, ctx := ctx, readTimeout := none, writeTimeout := none }

/-- TcpStream::try_clone (tcp.rs lines 68–73): clone the OS socket
(`cloneOk` is whether the OS `try_clone` and registration succeeded,
`fd2`/`ctx2` the ids of the clone), wrap it with `TcpStream::new`, then
copy both timeouts onto the clone with the setters. -/
def tryClone (s : TcpStreamM) (cloneOk : Bool) (fd2 ctx2 : Nat) : Option TcpStreamM :=
  if cloneOk then
    let c0 := tcpStreamNew fd2 ctx2
    let c1 := (setReadTimeout c0 s.readTimeout).2
    let c2 := (setWriteTimeout c1 s.writeTimeout).2
    some c2
  else none

/-! ## Theorems for C1, C6, C8, C10 -/

/-- C1: the claim says the constructed socket's domain mirrors the
address family.  The code fails this: at the concrete IPv6 address
`[::1]:80` (modelled as `SockAddr.v6 1`) `TcpStreamConnect::new`
constructs an IPv4-domain socket, while the family-mirroring domain is
IPv6.  The spec itself flags this line as a bug, so the code, not the
claim, is wrong. -/
theorem c1_connect_domain_v6_bug :
    connectDomain (SockAddr.v6 1) = Domain.ipv4 ∧
    mirrorDomain (SockAddr.v6 1) = Domain.ipv6 ∧
    connectDomain (SockAddr.v6 1) ≠ mirrorDomain (SockAddr.v6 1) := by
  decide

/-- C6: `borrow` returns a poison error exactly when the failed bit is
set, in either case handing out a guard that records the panic state at
borrow time, and `done` leaves the failed bit set exactly when it was
already set or a panic began while the guard was held (panicking now
but not at borrow). -/
theorem c6_poison_flag (f : Flag) (tpB tpD : Bool) (g : Guard) :
    isPoisonErr (f.borrow tpB) = f.failed ∧
    (f.borrow tpB = Except.error { panicking := tpB } ∨
      f.borrow tpB = Except.ok { panicking := tpB }) ∧
    (f.done g tpD).failed = (f.failed || (!g.panicking && tpD)) := by
  obtain ⟨fl⟩ := f
  obtain ⟨gp⟩ := g
  cases fl <;> cases gp <;> cases tpB <;> cases tpD <;>
    simp [Flag.borrow, Flag.done, isPoisonErr]

/-- C8: `set_read_timeout d` returns `Ok(())`, afterwards
`read_timeout()` returns `Ok d` while `write_timeout()` and every other
field are unchanged; symmetrically for `set_write_timeout`. -/
theorem c8_timeout_frame (s : TcpStreamM) (d : Option Nat) :
    (setReadTimeout s d).1 = IoRes.ok () ∧
    readTimeoutOf (setReadTimeout s d).2 = IoRes.ok d ∧
    writeTimeoutOf (setReadTimeout s d).2 = writeTimeoutOf s ∧
    (setReadTimeout s d).2.sys = s.sys ∧
    (setReadTimeout s d).2.ctx = s.ctx ∧
    (setWriteTimeout s d).1 = IoRes.ok () ∧
    writeTimeoutOf (setWriteTimeout s d).2 = IoRes.ok d ∧
    readTimeoutOf (setWriteTimeout s d).2 = readTimeoutOf s ∧
    (setWriteTimeout s d).2.sys = s.sys ∧
    (setWriteTimeout s d).2.ctx = s.ctx := by
  exact ⟨rfl, rfl, rfl, rfl, rfl, rfl, rfl, rfl, rfl, rfl⟩

/-- C10: when the OS clone succeeds, `try_clone` yields a stream whose
read and write timeouts equal those of the original (copied onto the
clone, not reset to `None`). -/
theorem c10_clone_copies_timeouts (s : TcpStreamM) (fd2 ctx2 : Nat) :
    ∃ c, tryClone s true fd2 ctx2 = some c ∧
      readTimeoutOf c = readTimeoutOf s ∧
      writeTimeoutOf c = writeTimeoutOf s ∧
      c.readTimeout = s.readTimeout ∧
      c.writeTimeout = s.writeTimeout := by
  exact ⟨_, rfl, rfl, rfl, rfl, rfl⟩

/-! ## C2/C7 — read/write/accept/connect control flow (src/net/tcp.rs) -/

/-- Observable actions the tcp wrappers perform, recorded so the frame
parts of the claims (no event source, no yield on the fallback path)
can be stated. -/
inductive Act where
  | setBlocking
  | blockingCall
  | nonblockingCall
  | mkEventSource
  | yieldCo
  deriving DecidableEq

/-- Modelled from the spec: `IoContext::check` (its body is not under
the excerpt).  Per the spec, nonblocking mode is "always enabled under
a coroutine, blocking fallback otherwise": outside a coroutine the
check runs the supplied closure, which puts the socket back into
blocking mode, and reports `false`; in coroutine context it reports
`true` and leaves the socket nonblocking. -/
def ioContextCheck (isCo : Bool) : Bool × List Act :=
  if isCo then (true, []) else (false, [Act.setBlocking])

/-- Modelled from the spec: the wait loop behind `SocketRead::done` (and
its write/accept counterparts), whose source file is not part of the
excerpt.  Per the spec, spurious wakeups are allowed and "consumers
must retry the syscall and re-arm on `WouldBlock`": `attempts` is the
sequence of nonblocking syscall outcomes at successive wakeups, and the
first non-`WouldBlock` outcome is the operation's result (`none` means
every attempt so far re-armed, i.e. the coroutine is still parked and
no result has been surfaced). -/
def eventSourceRetry (attempts : List (IoRes Nat)) : Option (IoRes Nat) :=
  match attempts with
  | [] => none
  | IoRes.err ErrKind.wouldBlock :: rest => eventSourceRetry rest
  | r :: _ => some r

/-- TcpStream::read (tcp.rs lines 118–135): the `IoContext` check picks
the blocking fallback outside a coroutine (`blockRes` is the plain
blocking syscall's outcome); in a coroutine a nonblocking try runs
first (`firstTry`), `WouldBlock` falls through to the `SocketRead`
event source and a yield, and every other outcome returns as-is. -/
def tcpRead (isCo : Bool) (blockRes : IoRes Nat) (firstTry : IoRes Nat)
    (attempts : List (IoRes Nat)) : Option (IoRes Nat) × List Act :=
  match ioContextCheck isCo with
  | (false, acts) => (some blockRes, acts ++ [Act.blockingCall])
  | (true, acts) =>
    match firstTry with
    | IoRes.err ErrKind.wouldBlock =>
      (eventSourceRetry attempts, acts ++ [Act.nonblockingCall, Act.mkEventSource, Act.yieldCo])
    | r => (some r, acts ++ [Act.nonblockingCall])

/-- TcpStream::write (tcp.rs lines 139–154): same shape as `read`, with
the `SocketWrite` event source. -/
def tcpWrite (isCo : Bool) (blockRes : IoRes Nat) (firstTry : IoRes Nat)
    (attempts : List (IoRes Nat)) : Option (IoRes Nat) × List Act :=
  match ioContextCheck isCo with
  | (false, acts) => (some blockRes, acts ++ [Act.blockingCall])
  | (true, acts) =>
    match firstTry with
    | IoRes.err ErrKind.wouldBlock =>
      (eventSourceRetry attempts, acts ++ [Act.nonblockingCall, Act.mkEventSource, Act.yieldCo])
    | r => (some r, acts ++ [Act.nonblockingCall])

/-- TcpListener::accept (tcp.rs lines 197–210): same shape again, with
the `TcpListenerAccept` event source (the accepted connection is
abstracted to a numeric id, as in the other two). -/
def tcpAccept (isCo : Bool) (blockRes : IoRes Nat) (firstTry : IoRes Nat)
    (attempts : List (IoRes Nat)) : Option (IoRes Nat) × List Act :=
  match ioContextCheck isCo with
  | (false, acts) => (some blockRes, acts ++ [Act.blockingCall])
  | (true, acts) =>
    match firstTry with
    | IoRes.err ErrKind.wouldBlock =>
      (eventSourceRetry attempts, acts ++ [Act.nonblockingCall, Act.mkEventSource, Act.yieldCo])
    | r => (some r, acts ++ [Act.nonblockingCall])

/-- TcpStream::connect (tcp.rs lines 43–58): outside a coroutine
(`is_coroutine()` false) the plain blocking `net::TcpStream::connect`
runs and its result (`blockRes`) is wrapped and returned directly; in a
coroutine the `TcpStreamConnect` event source is built and yielded on,
and the operation's result is whatever `done()` produces (`coRes`,
abstract here; the full `done` loop is `connectDone` below). -/
def tcpConnect (isCo : Bool) (blockRes : IoRes Nat) (coRes : IoRes Nat) :
    IoRes Nat × List Act :=
  if !isCo then (blockRes, [Act.blockingCall])
  else (coRes, [Act.mkEventSource, Act.yieldCo])

/-- Option-level test used to state "the returned result is never
`WouldBlock`". -/
def resultNotWouldBlock : Option (IoRes Nat) → Bool
  | some (IoRes.err ErrKind.wouldBlock) => false
  | _ => true

/-- Helper: the spec-modelled retry loop never surfaces `WouldBlock`,
because a `WouldBlock` attempt always re-arms instead of returning. -/
theorem eventSourceRetry_no_wouldblock (attempts : List (IoRes Nat)) :
    resultNotWouldBlock (eventSourceRetry attempts) = true := by
  induction attempts with
  | nil => rfl
  | cons a rest ih =>
    cases a with
    | ok v => rfl
    | err k =>
      cases k with
      | wouldBlock => simpa [eventSourceRetry] using ih
      | timedOut => rfl
      | canceled => rfl
      | other => rfl

/-! ## C3 — event-source `done()` and the cancel safepoint -/

/-- Outcome of `TcpStreamConnect::done`. -/
inductive ConnOut where
  | stream
  | canceledErr
  | osErr
  deriving DecidableEq

/-- Outcome of one `connect` syscall as the done loop inspects it
(tcp_stream_connect.rs lines 84–96). -/
inductive ConnRes where
  | ok
  | einprogress
  | ealready
  | eisconn
  | otherErr
  deriving DecidableEq

/-- Wait loop of `TcpStreamConnect::done` (tcp_stream_connect.rs lines
78–105), driven by environment oracles.  `ww` is the internal
`is_write_wait` bit.  `cancels` is the value the coroutine's cancel
token shows at each `co_io_result()` safepoint at the top of the loop
(per the spec, `co_io_result` fails with a cancelled error when the
token is set — its body is not part of the excerpt).  `readies` is the
value of `is_write_ready()` at each iteration's guard, `conns` the
outcome of each `connect` retry, and `flags` the bit-2 value consumed
by the `io_flag.fetch_and(!2, Relaxed)` test; whether that test says
"continue" or the loop yields first, the next step is the same loop, so
both branches recurse.  `none` means the loop is still parked when an
oracle runs out. -/
def connectDoneLoop : Bool → List Bool → List ConnRes → List Bool → List Bool → Option ConnOut
  | _, [], _, _, _ => none
  | ww, c :: cs, conns, readies, flags =>
    if c then some ConnOut.canceledErr
    else
      match readies with
      | [] => none
      | rd :: rds =>
        if !ww || rd then
          match conns with
          | [] => none
          | ConnRes.ok :: _ => some ConnOut.stream
          | ConnRes.eisconn :: _ => some ConnOut.stream
          | ConnRes.otherErr :: _ => some ConnOut.osErr
          | ConnRes.einprogress :: crs => connectDoneLoop true cs crs rds flags.tail
          | ConnRes.ealready :: crs => connectDoneLoop true cs crs rds flags.tail
        else connectDoneLoop ww cs conns rds flags.tail

/-- TcpStreamConnect::done (tcp_stream_connect.rs lines 67–106): if
`is_connected` was already set by the pre-yield `check_connected`, the
stream is returned at once (lines 73–76) without reaching the
`co_io_result` safepoint; otherwise the wait loop runs. -/
def connectDone (isConnected : Bool) (ww : Bool) (cancels : List Bool)
    (conns : List ConnRes) (readies : List Bool) (flags : List Bool) : Option ConnOut :=
  if isConnected then some ConnOut.stream
  else connectDoneLoop ww cancels conns readies flags

/-- Modelled from the spec: the windows `co_io_result(&EventData)`
safepoint (its body is not part of the excerpt).  Per the spec, "the
token is checked at each `co_io_result` safepoint ... causing the
operation to fail with a cancelled error"; otherwise the completion's
result (byte count or the operation's own error) passes through. -/
def coIoResultWin (canceled : Bool) (ioResult : IoRes Nat) : IoRes Nat :=
  if canceled then IoRes.err ErrKind.canceled else ioResult

/-- UdpRecvFrom::done (udp_recv_from.rs lines 37–45): first the
`co_io_result` safepoint, then the peer-address decode (`addr`, an
abstract id; `none` models a `SocketAddrBuf` that does not convert). -/
def udpRecvFromDone (canceled : Bool) (ioResult : IoRes Nat) (addr : Option Nat) :
    IoRes (Nat × Nat) :=
  match coIoResultWin canceled ioResult with
  | IoRes.err k => IoRes.err k
  | IoRes.ok size =>
    match addr with
    | none => IoRes.err ErrKind.other
    | some a => IoRes.ok (size, a)

/-! ## Theorems for C2, C3, C7 -/

/-- C2: under a coroutine, `TcpStream::read`, `TcpStream::write` and
`TcpListener::accept` never return a `WouldBlock` error — a
`WouldBlock` from the nonblocking try falls through to the event source,
whose retry loop re-arms on every further `WouldBlock` — and every
non-`WouldBlock` first outcome (success or any other error kind) is
returned as-is. -/
theorem c2_never_wouldblock (blockRes firstTry : IoRes Nat)
    (attempts : List (IoRes Nat)) (v : Nat) :
    resultNotWouldBlock (tcpRead true blockRes firstTry attempts).1 = true ∧
    resultNotWouldBlock (tcpWrite true blockRes firstTry attempts).1 = true ∧
    resultNotWouldBlock (tcpAccept true blockRes firstTry attempts).1 = true ∧
    (tcpRead true blockRes (IoRes.ok v) attempts).1 = some (IoRes.ok v) ∧
    (tcpWrite true blockRes (IoRes.ok v) attempts).1 = some (IoRes.ok v) ∧
    (tcpAccept true blockRes (IoRes.ok v) attempts).1 = some (IoRes.ok v) ∧
    (tcpRead true blockRes (IoRes.err ErrKind.timedOut) attempts).1 =
      some (IoRes.err ErrKind.timedOut) ∧
    (tcpRead true blockRes (IoRes.err ErrKind.canceled) attempts).1 =
      some (IoRes.err ErrKind.canceled) ∧
    (tcpRead true blockRes (IoRes.err ErrKind.other) attempts).1 =
      some (IoRes.err ErrKind.other) := by
  refine ⟨?_, ?_, ?_, rfl, rfl, rfl, rfl, rfl, rfl⟩ <;>
  · cases firstTry with
    | ok v2 => rfl
    | err k =>
      cases k with
      | wouldBlock => exact eventSourceRetry_no_wouldblock attempts
      | timedOut => rfl
      | canceled => rfl
      | other => rfl

/-- C3 counterexample: the claim says every event-source `done()`
checks the cancel token via `co_io_result` before returning its result.
`TcpStreamConnect::done` does not: with `is_connected` already set and
the cancel token set (the `cancels` oracle reads `true` at what would be
the first safepoint), `done` returns the stream, not a cancelled
error. -/
theorem c3_done_connected_skips_cancel_check :
    connectDone true false [true] [] [] [] = some ConnOut.stream ∧
    some ConnOut.stream ≠ some ConnOut.canceledErr := by
  decide

/-- C3 (amended): whenever an event-source `done()` actually waits, the
cancel token is checked at the `co_io_result` safepoint before any
result is returned: `TcpStreamConnect::done` with `is_connected` unset
fails with a cancelled error as soon as the token reads set at the top
of its loop, and `UdpRecvFrom::done` with the token set fails with a
cancelled error whatever the completion result and address were.  Only
the already-connected fast path of `TcpStreamConnect::done` returns its
value without a token check. -/
theorem c3_done_checks_cancel (ww : Bool) (cs : List Bool) (conns : List ConnRes)
    (readies : List Bool) (flags : List Bool) (r : IoRes Nat) (addr : Option Nat) :
    connectDone false ww (true :: cs) conns readies flags = some ConnOut.canceledErr ∧
    udpRecvFromDone true r addr = IoRes.err ErrKind.canceled := by
  constructor
  · simp [connectDone, connectDoneLoop]
  · rfl

/-- C7: when the calling thread is not running a coroutine,
`TcpStream::connect` and `TcpStream::read` take the synchronous
fallback: the socket is put in (or, for `connect`, created in) blocking
mode, the blocking syscall's result is returned directly, and no event
source is constructed and no yield happens. -/
theorem c7_sync_fallback (blockRes firstTry coRes : IoRes Nat)
    (attempts : List (IoRes Nat)) :
    (tcpConnect false blockRes coRes).1 = blockRes ∧
    (tcpConnect false blockRes coRes).2 = [Act.blockingCall] ∧
    Act.mkEventSource ∉ (tcpConnect false blockRes coRes).2 ∧
    Act.yieldCo ∉ (tcpConnect false blockRes coRes).2 ∧
    (tcpRead false blockRes firstTry attempts).1 = some blockRes ∧
    (tcpRead false blockRes firstTry attempts).2 = [Act.setBlocking, Act.blockingCall] ∧
    Act.mkEventSource ∉ (tcpRead false blockRes firstTry attempts).2 ∧
    Act.yieldCo ∉ (tcpRead false blockRes firstTry attempts).2 := by
  refine ⟨rfl, rfl, ?_, ?_, rfl, rfl, ?_, ?_⟩ <;>
    simp [tcpConnect, tcpRead, ioContextCheck]

/-! ## C4/C5 — the `subscribe` park-slot protocol

The atomic orderings of the source (`Release` on the park-slot swap,
`Acquire` on the readiness re-check) cannot be represented directly in
a shallow embedding; following the spec's own reading of the protocol,
each atomic access is modelled as one indivisible step and the race
with the reactor is modelled by interleaving those steps. -/

/-- State shared between `TcpStreamConnect::subscribe` and the reactor:
whether a coroutine sits in the `io_data.co` park slot, the
write-readiness flag, how many times `schedule()` has run, whether the
cancel token holds the `IoData` back-reference (`set_io`), the token's
cancelled bit, and whether the platform unstick (`cancel()`) was
issued. -/
structure SubSt where
  slot : Bool
  ready : Bool
  sched : Nat
  tokenIo : Bool
  canceled : Bool
  unstick : Bool
  deriving DecidableEq

/-- First step of TcpStreamConnect::subscribe (tcp_stream_connect.rs
line 118): install the coroutine into the park slot
(`io_data.co.swap(co, Ordering::Release)`). -/
def parkStep (s : SubSt) : SubSt :=
  { s with slot := true }

/-- IoData::schedule: atomically take the parked coroutine, if any, and
push it onto a ready queue; a schedule is counted only when a coroutine
was actually present to take. -/
def scheduleStep (s : SubSt) : SubSt :=
  if s.slot then { s with slot := false, sched := s.sched + 1 } else s

/-- Rest of TcpStreamConnect::subscribe (lines 120–131): re-check
`is_write_ready()` and schedule at once if it is set (lines 121–123);
otherwise register the `IoData` into the cancel token with `set_io`
(line 126) and re-check the token, issuing the unstick if it was
already set (lines 128–130). -/
def subscribeTail (s : SubSt) : SubSt :=
  if s.ready then scheduleStep s
  else
    let s1 := { s with tokenIo := true }
    if s1.canceled then { s1 with unstick := true } else s1

/-- TcpStreamConnect::subscribe, in source order: park, then the
re-check tail (the optional `add_io_timer` call before the park does
not touch this state and is omitted). -/
def connectSubscribe (s : SubSt) : SubSt :=
  subscribeTail (parkStep s)

/-- Modelled from the spec: the reactor's event delivery for the fd
("set the matching readiness bits in `IoData` and, if a coroutine is
parked in the corresponding slot, atomically take it and schedule
it"). -/
def wakeStep (s : SubSt) : SubSt :=
  scheduleStep { s with ready := true }

/-- Initial state of a subscription whose nonblocking try returned
`WouldBlock`: nothing parked, no readiness recorded, nothing scheduled,
token empty and not cancelled. -/
def initSub : SubSt :=
  { slot := false, ready := false, sched := 0,
    tokenIo := false, canceled := false, unstick := false }

/-- All interleavings of one reactor wakeup with the two steps of
`subscribe`: `0` places the event before the park (it arrived between
the nonblocking attempt and the park), `1` between the park and the
re-check, and any other index after the re-check. -/
def subscribeRace : Nat → SubSt
  | 0 => subscribeTail (parkStep (wakeStep initSub))
  | 1 => subscribeTail (wakeStep (parkStep initSub))
  | _ => wakeStep (subscribeTail (parkStep initSub))

/-- Cancel-related state of a windows `UdpRecvFrom` subscription: the
completion model has no readiness re-check, only the overlapped
submission followed by the cancel registration. -/
structure WinSubSt where
  tokenIo : Bool
  canceled : Bool
  unstick : Bool
  deriving DecidableEq

/-- UdpRecvFrom::subscribe (udp_recv_from.rs lines 53–73): park the
coroutine in the event data, submit the overlapped receive — `submitOk`
mirrors the `co_try!` outcome; on failure the coroutine is rescheduled
with the error and the cancel registration never runs — then register
the cancel io data with `set_io` (line 67) and re-check the token,
issuing `CancelIoEx` if it was already set (lines 69–71). -/
def udpRecvFromSubscribe (submitOk : Bool) (s : WinSubSt) : WinSubSt :=
  if submitOk then
    let s1 := { s with tokenIo := true }
    if s1.canceled then { s1 with unstick := true } else s1
  else s

/-! ## C9 — the echo handler (examples/echo.rs) -/

/-- One client-to-server transfer as `handle_client` observes it: each
list element pairs a successful `stream.read` chunk (what landed in the
16 KiB buffer) with the byte count the following
`stream.write(&read[0..n])` reported; the end of the list is the point
where `read` would next return 0 (EOF).  The loop reads a chunk, stops
if it is empty (`n == 0`, connection closed), and otherwise writes the
chunk, of which only the reported count actually reaches the wire —
the `.unwrap()` discards that count without checking it.  The value is
the byte sequence echoed back. -/
def handleClient : List (List Nat × Nat) → List Nat
  | [] => []
  | (c, w) :: rest =>
    if c.length = 0 then [] else List.take w c ++ handleClient rest

/-- The byte sequence `B` the client sent: the concatenation of the
chunks in read order. -/
def sentBytes : List (List Nat × Nat) → List Nat
  | [] => []
  | (c, _) :: rest => c ++ sentBytes rest

/-! ## Theorems for C4, C5, C9 -/

/-- C4: `subscribe` installs the coroutine into the park slot first and
re-checks readiness only afterwards, scheduling immediately when the
flag is set, so under every interleaving of a reactor wakeup with the
two steps — before the park, between park and re-check, after the
re-check — the coroutine is scheduled exactly once and never left
stuck in the slot: the wakeup is never lost. -/
theorem c4_no_lost_wakeup (i : Nat) :
    (subscribeRace i).sched = 1 ∧ (subscribeRace i).slot = false := by
  match i with
  | 0 => exact ⟨rfl, rfl⟩
  | 1 => exact ⟨rfl, rfl⟩
  | n + 2 => exact ⟨rfl, rfl⟩

/-- C5: on every subscription whose coroutine stays parked (the
readiness re-check did not fire), `subscribe` records the `IoData`
back-reference into the cancel token via `set_io` and then re-checks
the token, issuing the platform unstick if it was already set; this
holds for the unix `TcpStreamConnect::subscribe` and, given that the
overlapped submission succeeded, for the windows
`UdpRecvFrom::subscribe`. -/
theorem c5_subscribe_registers_cancel (s : SubSt) (w : WinSubSt)
    (hready : s.ready = false) :
    (connectSubscribe s).tokenIo = true ∧
    (s.canceled = true → (connectSubscribe s).unstick = true) ∧
    (udpRecvFromSubscribe true w).tokenIo = true ∧
    (w.canceled = true → (udpRecvFromSubscribe true w).unstick = true) := by
  have hmain : ∀ t : SubSt, t.ready = false →
      (subscribeTail t).tokenIo = true ∧
      (t.canceled = true → (subscribeTail t).unstick = true) := by
    intro t ht
    constructor
    · by_cases hc : t.canceled = true <;> simp [subscribeTail, ht, hc]
    · intro hc
      simp [subscribeTail, ht, hc]
  obtain ⟨ha, hb⟩ := hmain (parkStep s) (by simp [parkStep, hready])
  have hwin : (udpRecvFromSubscribe true w).tokenIo = true ∧
      (w.canceled = true → (udpRecvFromSubscribe true w).unstick = true) := by
    constructor
    · by_cases hc : w.canceled = true <;> simp [udpRecvFromSubscribe, hc]
    · intro hc
      simp [udpRecvFromSubscribe, hc]
  exact ⟨ha, fun h => hb (by simpa [parkStep] using h), hwin.1, hwin.2⟩

/-- C5 witness: at the concrete parked subscription whose token is
already set, the back-reference is recorded and the unstick issued. -/
theorem c5_subscribe_registers_cancel_witness :
    (connectSubscribe
      { slot := false, ready := false, sched := 0,
        tokenIo := false, canceled := true, unstick := false }).tokenIo = true ∧
    (connectSubscribe
      { slot := false, ready := false, sched := 0,
        tokenIo := false, canceled := true, unstick := false }).unstick = true ∧
    (udpRecvFromSubscribe true
      { tokenIo := false, canceled := true, unstick := false }).tokenIo = true ∧
    (udpRecvFromSubscribe true
      { tokenIo := false, canceled := true, unstick := false }).unstick = true := by
  obtain ⟨h1, h2, h3, h4⟩ :=
    c5_subscribe_registers_cancel
      { slot := false, ready := false, sched := 0,
        tokenIo := false, canceled := true, unstick := false }
      { tokenIo := false, canceled := true, unstick := false }
      rfl
  exact ⟨h1, h2 rfl, h3, h4 rfl⟩

/-- C9 counterexample: the claim says `handle_client` writes back
exactly the client's bytes.  At the concrete transfer where the client
sent `[1, 2]` (one chunk of length 2 ≤ 16384, total 2 ≤ 2^20 bytes) and
the single unchecked `stream.write` call reported 1 byte written, the
handler echoes `[1]`, not `[1, 2]`. -/
theorem c9_partial_write_drops_bytes :
    sentBytes [([1, 2], 1)] = [1, 2] ∧
    handleClient [([1, 2], 1)] = [1] ∧
    handleClient [([1, 2], 1)] ≠ sentBytes [([1, 2], 1)] := by
  decide

/-- C9 (amended): `handle_client` echoes exactly the bytes its write
calls report as written; since each chunk goes to a single
`stream.write` whose count is unwrapped but never checked, the echo
equals the client's byte sequence `B` exactly when every write reports
the full chunk — under that proviso, for every sequence of nonempty
read chunks the handler writes back their concatenation `B` and
terminates at the EOF read. -/
theorem c9_echo_full_writes (reads : List (List Nat × Nat))
    (hfull : reads.all (fun p => p.2 == p.1.length) = true)
    (hne : reads.all (fun p => !p.1.isEmpty) = true) :
    handleClient reads = sentBytes reads := by
  induction reads with
  | nil => rfl
  | cons p rest ih =>
    obtain ⟨c, w⟩ := p
    rw [List.all_cons, Bool.and_eq_true] at hfull hne
    obtain ⟨hw, hfull2⟩ := hfull
    obtain ⟨hc, hne2⟩ := hne
    have hwlen : w = c.length := by simpa using hw
    have hclen : c.length ≠ 0 := by
      simpa [List.isEmpty_iff_length_eq_zero] using hc
    simp [handleClient, sentBytes, hclen, hwlen, List.take_length, ih hfull2 hne2]

/-- C9 witness: a concrete two-chunk transfer with full writes echoes
the client's bytes exactly. -/
theorem c9_echo_full_writes_witness :
    handleClient [([3, 4], 2), ([5], 1)] = sentBytes [([3, 4], 2), ([5], 1)] := by
  exact c9_echo_full_writes [([3, 4], 2), ([5], 1)] rfl rfl

end May
